import Mathlib

/-!
# A shallow embedding of the relay actuator (src/relay.go)

This file embeds the timed-activation state machine of the relay package:
the `relay` struct, its `Execute` entry point, the background timing
goroutine it spawns, and the plain pin accessors (`Set`, `On`, `Off`,
`DurationCh`, `reset`, `New`, `Configure`).

Concurrency is embedded as a small-step transition system driven by an
explicit schedule: the foreground `Execute` path runs atomically up to its
suspension point (the 50 ms grace-period sleep inside the `Off` branch),
the spawned goroutine runs in atomic steps (channel setup; activation
report; one loop iteration), and the passage of time is an explicit step.
Go `select` nondeterminism is resolved by a choice carried in the schedule;
a choice whose case is not ready is a stutter, and `default` is only
enabled when no channel case is ready, as in Go.

Durations and timestamps are `Int` nanoseconds (Go `time.Duration` is an
int64 nanosecond count; `time.Time`'s zero value is embedded as `0`).
Capacity-1 channels are embedded as a buffer list plus a closed flag;
receive from a closed channel yields the zero value, send on a closed
channel sets a panic flag (as in Go). Status-report messages are embedded
as tagged constructors carrying the data the Go code interpolates into the
string, rather than as formatted strings.
-/

namespace Relay

/-- A Go channel: buffer contents plus a closed flag. The Go code only ever
makes capacity-1 channels; the buffer is a list, and no modelled scenario
exceeds one element. -/
structure Chan (α : Type) where
  buf : List α
  closed : Bool
deriving DecidableEq, Repr

/-- Receive readiness: a receive proceeds when the buffer is nonempty or the
channel is closed (a closed channel yields the zero value immediately). -/
def Chan.recvReady {α : Type} (ch : Chan α) : Bool :=
  ch.closed || !ch.buf.isEmpty

/-- Receive: pop the buffer head, or the zero value `z` when the (closed)
buffer is empty. -/
def Chan.recv {α : Type} (ch : Chan α) (z : α) : α × Chan α :=
  match ch.buf with
  | [] => (z, ch)
  | v :: rest => (v, { ch with buf := rest })

/-- Send: append to the buffer. -/
def Chan.send {α : Type} (ch : Chan α) (v : α) : Chan α :=
  { ch with buf := ch.buf ++ [v] }

/-- Close a channel (reset closes both session channels). -/
def Chan.close {α : Type} (ch : Chan α) : Chan α :=
  { ch with closed := true }

/-- The tagged content of `t.Message` as set by the relay code. Each
constructor carries the data the Go code formats into the string. -/
inductive Msg where
  /-- "error - NAME received a trigger intended for TARGET" (line 63). -/
  | wrongTarget (name target : String)
  /-- "NAME - On indefinitely at ..." (line 90). -/
  | onIndefinitely (name : String)
  /-- "NAME - On for D at ..." (line 95). -/
  | onFor (name : String) (d : Int)
  /-- "NAME - Forced Off after E at ..." (line 104, off-signal case). -/
  | forcedOff (name : String) (elapsed : Int)
  /-- "NAME - Off after E at ..." (lines 110 and 121: non-positive revision
  and timeout). -/
  | offAfter (name : String) (elapsed : Int)
  /-- "NAME - Changing On duration to NEW (after E of a scheduled OLD) at
  ..." (line 114). -/
  | changing (name : String) (newD oldD : Int)
  /-- "NAME - Off! after E at ..." (line 153, foreground forced off). -/
  | offBang (name : String) (elapsed : Int)
  /-- "error - NAME does not understand Action: A" (line 161). -/
  | badAction (name action : String)
deriving DecidableEq, Repr

/-- A value sent on a trigger's ReportCh: the message, the trigger's Error
flag at send time, and the identity of the reply channel it was sent on. -/
structure Report where
  msg : Msg
  error : Bool
  replyCh : Nat
deriving DecidableEq, Repr

/-- trigger.Trigger, restricted to the fields the relay reads or writes:
Target, Action, Duration, Error, and the ReportCh identity. -/
structure Trigger where
  target : String
  action : String
  duration : Int
  error : Bool
  replyCh : Nat
deriving DecidableEq, Repr

/-- Program counter of a spawned timing goroutine (relay.go lines 73-130):
`start` is about to create its channels and publish the pointers (74-77),
`report` is about to send the activation report (89-97), `loop` is at the
for/select (100-128), `exited` has returned (deferred reset already run). -/
inductive TaskPC where
  | start
  | report
  | loop
  | exited
deriving DecidableEq, Repr

/-- The two local channels a goroutine creates for itself (lines 74-75). -/
structure TaskChans where
  durCh : Chan Int
  offCh : Chan Unit
deriving DecidableEq, Repr

/-- One spawned timing goroutine: its identity, program counter, local
channels (`none` before the `start` step has run), and the captured
trigger `t`. -/
structure Task where
  id : Nat
  pc : TaskPC
  chans : Option TaskChans
  trig : Trigger
deriving DecidableEq, Repr

/-- Program counter of the foreground `Execute` path: `idle` outside any
call, `offWait t` inside the Off branch sleeping out the 50 ms grace
period after sending the off signal (line 148). -/
inductive FgPC where
  | idle
  | offWait (t : Trigger)
deriving DecidableEq, Repr

/-- The whole system: the relay struct fields (name, pin, onTime, duration,
and the two channel pointers, embedded as references to the task whose
local channels they point at), the set of spawned goroutines, the
foreground PC, every report sent so far, the clock, a fresh-id counter,
and a flag recording a Go runtime panic (send on closed channel). -/
structure Config where
  name : String
  pin : Bool
  onTime : Int
  duration : Int
  durationPtr : Option Nat
  offPtr : Option Nat
  tasks : List Task
  fg : FgPC
  reports : List Report
  now : Int
  nextId : Nat
  panicked : Bool
deriving DecidableEq, Repr

/-- Look a task up by id. -/
def getTask : List Task → Nat → Option Task
  | [], _ => none
  | tk :: rest, i => if tk.id = i then some tk else getTask rest i

/-- Replace the task with the given task's id. -/
def setTask (ts : List Task) (tk : Task) : List Task :=
  ts.map fun u => if u.id = tk.id then tk else u

/-- Append one report to the trigger's ReportCh (`t.ReportCh <- t`). -/
def emit (c : Config) (m : Msg) (e : Bool) (rc : Nat) : Config :=
  { c with reports := c.reports ++ [⟨m, e, rc⟩] }

/-- The matcher of `case "On", "on", "ON"` (line 68). -/
def isOnAction (a : String) : Bool :=
  a = "On" || a = "on" || a = "ON"

/-- The matcher of `case "Off", "off", "OFF"` (line 144). -/
def isOffAction (a : String) : Bool :=
  a = "Off" || a = "off" || a = "OFF"

/-- Update the channels of the task with id `i`. -/
def mapChans (ts : List Task) (i : Nat) (f : TaskChans → TaskChans) : List Task :=
  ts.map fun u => if u.id = i then { u with chans := u.chans.map f } else u

/-- relay.reset (lines 233-252): close the channel `r.off` points at (if
non-nil) and nil the pointer, likewise for `r.durationCh`, then zero
`r.duration` and `r.onTime`. The channels closed are whichever channels
the pointers currently reference. -/
def reset (c : Config) : Config :=
  let c1 := match c.offPtr with
    | none => c
    | some i =>
        { c with tasks := mapChans c.tasks i fun ch => { ch with offCh := ch.offCh.close },
                 offPtr := none }
  let c2 := match c1.durationPtr with
    | none => c1
    | some i =>
        { c1 with tasks := mapChans c1.tasks i fun ch => { ch with durCh := ch.durCh.close },
                  durationPtr := none }
  { c2 with duration := 0, onTime := 0 }

/-- Foreground send `*r.durationCh <- v` into the channels of the task the
duration pointer references (line 139). Send on a closed channel is a Go
runtime panic. -/
def sendDur (c : Config) (i : Nat) (v : Int) : Config :=
  match getTask c.tasks i with
  | none => c
  | some tk =>
    match tk.chans with
    | none => c
    | some ch =>
      if ch.durCh.closed then { c with panicked := true }
      else { c with tasks := setTask c.tasks { tk with chans := some { ch with durCh := ch.durCh.send v } } }

/-- Foreground send `*r.off <- struct\x7b\x7d\x7b\x7d` into the channels of
the task the off pointer references (line 147). -/
def sendOff (c : Config) (i : Nat) : Config :=
  match getTask c.tasks i with
  | none => c
  | some tk =>
    match tk.chans with
    | none => c
    | some ch =>
      if ch.offCh.closed then { c with panicked := true }
      else { c with tasks := setTask c.tasks { tk with chans := some { ch with offCh := ch.offCh.send () } } }

/-- The tail of the Off branch (lines 150-157): after the optional signal
and grace period, if the pin still reads high, force it low, report
"Off! after elapsed", and reset. Otherwise do nothing. -/
def offCheck (c : Config) (t : Trigger) : Config :=
  if c.pin then
    reset (emit { c with pin := false } (Msg.offBang c.name (c.now - c.onTime)) t.error t.replyCh)
  else c

/-- One call of relay.Execute (lines 58-165) up to its first suspension
point. The identity check, the On branch (spawn or revise) and the
unknown-action branch run to completion; the Off branch with a live
session sends the off signal and suspends into `FgPC.offWait` for the
grace-period sleep (the pin check happens at `fgResume`). -/
def execDeliver (c : Config) (t : Trigger) : Config :=
  if t.target ≠ c.name then
    emit c (Msg.wrongTarget c.name t.target) true t.replyCh
  else if isOnAction t.action then
    let t2 : Trigger := { t with error := false }
    if c.offPtr = none ∧ c.durationPtr = none then
      { c with onTime := c.now, pin := true,
               tasks := c.tasks ++ [⟨c.nextId, TaskPC.start, none, t2⟩],
               nextId := c.nextId + 1 }
    else if t2.duration ≠ c.duration then
      match c.durationPtr with
      | some i => sendDur c i t2.duration
      | none => c
    else c
  else if isOffAction t.action then
    match c.offPtr, c.durationPtr with
    | some i, some _ => { (sendOff c i) with fg := FgPC.offWait t }
    | _, _ => offCheck c t
  else
    emit c (Msg.badAction c.name t.action) true t.replyCh

/-- One atomic step of the timing goroutine with id `i`, the `select` case
to attempt given by `sel` (only consulted at `TaskPC.loop`). A `sel` whose
case is not ready, and `pickDefault` when some case is ready, stutter. -/
inductive Select where
  | pickOff
  | pickDur
  | pickDefault
deriving DecidableEq, Repr

def taskStep (c : Config) (i : Nat) (sel : Select) : Config :=
  match getTask c.tasks i with
  | none => c
  | some tk =>
    match tk.pc with
    | TaskPC.exited => c
    | TaskPC.start =>
        -- lines 74-77: make both capacity-1 channels, publish the pointers
        { c with tasks := setTask c.tasks
                   { tk with pc := TaskPC.report, chans := some ⟨⟨[], false⟩, ⟨[], false⟩⟩ },
                 durationPtr := some i, offPtr := some i }
    | TaskPC.report =>
        -- lines 89-97: one activation report, then enter the loop
        let c2 := { c with tasks := setTask c.tasks { tk with pc := TaskPC.loop } }
        if tk.trig.duration ≤ 0 then
          emit c2 (Msg.onIndefinitely c.name) tk.trig.error tk.trig.replyCh
        else
          emit { c2 with duration := tk.trig.duration }
            (Msg.onFor c.name tk.trig.duration) tk.trig.error tk.trig.replyCh
    | TaskPC.loop =>
        match tk.chans with
        | none => c
        | some ch =>
          match sel with
          | Select.pickOff =>
            if ch.offCh.recvReady then
              -- lines 102-106 then deferred reset (line 80)
              let ch2 := (ch.offCh.recv ()).2
              let c2 := { c with pin := false,
                                 tasks := setTask c.tasks
                                   { tk with pc := TaskPC.exited, chans := some { ch with offCh := ch2 } } }
              reset (emit c2 (Msg.forcedOff c.name (c.now - c.onTime)) tk.trig.error tk.trig.replyCh)
            else c
          | Select.pickDur =>
            if ch.durCh.recvReady then
              -- lines 107-116
              let v := (ch.durCh.recv 0).1
              let ch2 := { ch with durCh := (ch.durCh.recv 0).2 }
              if v ≤ 0 then
                let c2 := { c with pin := false,
                                   tasks := setTask c.tasks
                                     { tk with pc := TaskPC.exited, chans := some ch2 } }
                reset (emit c2 (Msg.offAfter c.name (c.now - c.onTime)) tk.trig.error tk.trig.replyCh)
              else
                -- message carries old r.duration (line 114), then update (115), then send (116)
                emit { c with duration := v,
                              tasks := setTask c.tasks { tk with chans := some ch2 } }
                  (Msg.changing c.name v c.duration) tk.trig.error tk.trig.replyCh
            else c
          | Select.pickDefault =>
            if ch.offCh.recvReady || ch.durCh.recvReady then c
            else if 0 < c.duration ∧ c.duration < c.now - c.onTime then
              -- lines 118-125 then deferred reset
              let c2 := { c with pin := false,
                                 tasks := setTask c.tasks { tk with pc := TaskPC.exited } }
              reset (emit c2 (Msg.offAfter c.name (c.now - c.onTime)) tk.trig.error tk.trig.replyCh)
            else c  -- line 127: sleep 45 ms; time passing is a separate step

/-- A scheduler choice: deliver a trigger to `Execute` (enabled when the
foreground is idle), resume the foreground after the Off-branch grace
period, run one step of goroutine `i`, or let `dt` nanoseconds pass. -/
inductive SchedStep where
  | deliver (t : Trigger)
  | fgResume
  | taskRun (i : Nat) (sel : Select)
  | advance (dt : Int)
deriving DecidableEq, Repr

def step (c : Config) (σ : SchedStep) : Config :=
  match σ with
  | SchedStep.deliver t =>
      match c.fg with
      | FgPC.idle => execDeliver c t
      | FgPC.offWait _ => c
  | SchedStep.fgResume =>
      match c.fg with
      | FgPC.offWait t => offCheck { c with fg := FgPC.idle } t
      | FgPC.idle => c
  | SchedStep.taskRun i sel => taskStep c i sel
  | SchedStep.advance dt => { c with now := c.now + (if 0 ≤ dt then dt else 0) }

def run (c : Config) : List SchedStep → Config
  | [] => c
  | σ :: rest => run (step c σ) rest

/-- relay.New (lines 35-44): all timing fields at their zero values, both
channel pointers nil. -/
def New (p : Bool) (name : String) : Config :=
  { name := name, pin := p, onTime := 0, duration := 0,
    durationPtr := none, offPtr := none, tasks := [], fg := FgPC.idle,
    reports := [], now := 0, nextId := 0, panicked := false }

/-- The settle pause of the direct accessors (5 ms in nanoseconds). -/
def settle : Int := 5000000

/-- relay.Off the direct accessor (lines 189-194): pin low, stamp onTime,
sleep 5 ms, return the re-read pin level. -/
def Off (c : Config) : Config × Bool :=
  let c2 := { c with pin := false, onTime := c.now, now := c.now + settle }
  (c2, c2.pin)

/-- relay.On the direct accessor (lines 181-186). -/
def On (c : Config) : Config × Bool :=
  let c2 := { c with pin := true, onTime := c.now, now := c.now + settle }
  (c2, c2.pin)

/-- relay.Set (lines 173-178): write the level, stamp onTime, sleep 5 ms,
return the re-read pin level. -/
def Set (c : Config) (s : Bool) : Config × Bool :=
  let c2 := { c with pin := s, onTime := c.now, now := c.now + settle }
  (c2, c2.pin)

/-- relay.Configure (lines 47-51): pin to output mode, force off, stamp. -/
def Configure (c : Config) : Config :=
  let c2 := (Off c).1
  { c2 with onTime := c2.now }

/-- relay.DurationCh (lines 53-55) returns `*r.durationCh`: the result is
the channel reference when the pointer is non-nil; when the pointer is nil
the dereference is a Go nil-pointer panic, embedded as `none`. -/
def DurationChDeref (c : Config) : Option Nat :=
  c.durationPtr

/-- Whether calling DurationCh panics: exactly when `r.durationCh` is nil. -/
def durationChPanics (c : Config) : Bool :=
  c.durationPtr.isNone

end Relay

namespace Relay

/-! ## Helper lemmas -/

theorem isOnAction_eq_false_of_isOffAction {a : String} (h : isOffAction a = true) :
    isOnAction a = false := by
  simp [isOffAction] at h
  rcases h with (h | h) | h <;> subst h <;> decide

theorem getTask_mem {i : Nat} {tk : Task} :
    ∀ {ts : List Task}, getTask ts i = some tk → tk ∈ ts := by
  intro ts
  induction ts with
  | nil => intro h; simp [getTask] at h
  | cons u rest ih =>
      intro h
      by_cases hu : u.id = i
      · simp [getTask, hu] at h
        simp [h]
      · simp [getTask, hu] at h
        exact List.mem_cons_of_mem u (ih h)

theorem reset_reports (c : Config) : (reset c).reports = c.reports := by
  unfold reset
  cases h1 : c.offPtr <;> cases h2 : c.durationPtr <;> simp [h1, h2]

theorem reset_pin (c : Config) : (reset c).pin = c.pin := by
  unfold reset
  cases h1 : c.offPtr <;> cases h2 : c.durationPtr <;> simp [h1, h2]

/-- Scheduler steps that involve neither a new command delivery nor the
foreground resumption: only goroutine steps and the passage of time. -/
def calmStep : SchedStep → Bool
  | SchedStep.taskRun _ _ => true
  | SchedStep.advance _ => true
  | _ => false

theorem step_calm_of_exited {c : Config} {σ : SchedStep}
    (hex : ∀ tk ∈ c.tasks, tk.pc = TaskPC.exited) (hσ : calmStep σ = true) :
    (step c σ).reports = c.reports ∧ (step c σ).pin = c.pin ∧ (step c σ).tasks = c.tasks := by
  cases σ with
  | deliver t => simp [calmStep] at hσ
  | fgResume => simp [calmStep] at hσ
  | taskRun i sel =>
      cases h : getTask c.tasks i with
      | none => simp [step, taskStep, h]
      | some tk =>
          have hpc := hex tk (getTask_mem h)
          simp [step, taskStep, h, hpc]
  | advance dt => simp [step]

/-- Once every goroutine has exited, no schedule of goroutine steps and
time advances produces another report or touches the pin. -/
theorem run_calm_of_exited {s : List SchedStep} :
    ∀ {c : Config}, (∀ tk ∈ c.tasks, tk.pc = TaskPC.exited) →
      (∀ σ ∈ s, calmStep σ = true) →
      (run c s).reports = c.reports ∧ (run c s).pin = c.pin := by
  induction s with
  | nil => intro c _ _; simp [run]
  | cons σ rest ih =>
      intro c hex hs
      have h1 := step_calm_of_exited hex (hs σ (by simp))
      have hex2 : ∀ tk ∈ (step c σ).tasks, tk.pc = TaskPC.exited := by
        rw [h1.2.2]; exact hex
      have h2 := ih hex2 (fun τ hτ => hs τ (by simp [hτ]))
      show (run (step c σ) rest).reports = c.reports ∧ (run (step c σ) rest).pin = c.pin
      exact ⟨by rw [h2.1, h1.1], by rw [h2.2, h1.2.1]⟩

/-- The activation reports among those sent so far. -/
def isActivation : Msg → Bool
  | Msg.onIndefinitely _ => true
  | Msg.onFor _ _ => true
  | _ => false

def activations (c : Config) : List Report :=
  c.reports.filter fun r => isActivation r.msg

/-- A goroutine that has reached its monitoring loop (or exited) never
emits another activation report: the loop branches emit only forced-off,
off-after and changing-duration messages. -/
theorem taskStep_no_activation {c : Config} {i : Nat} {sel : Select}
    (h : ∀ tk ∈ c.tasks, tk.pc = TaskPC.loop ∨ tk.pc = TaskPC.exited) :
    activations (taskStep c i sel) = activations c := by
  cases hg : getTask c.tasks i with
  | none => simp [taskStep, hg]
  | some tk =>
      rcases h tk (getTask_mem hg) with hpc | hpc
      · cases hch : tk.chans with
        | none => simp [taskStep, hg, hpc, hch]
        | some ch =>
            cases sel with
            | pickOff =>
                by_cases hr : ch.offCh.recvReady
                · simp [taskStep, hg, hpc, hch, hr, activations, reset_reports, emit,
                    List.filter_append, isActivation]
                · simp [taskStep, hg, hpc, hch, hr]
            | pickDur =>
                by_cases hr : ch.durCh.recvReady
                · by_cases hv : (ch.durCh.recv 0).1 ≤ 0 <;>
                    simp [taskStep, hg, hpc, hch, hr, hv, activations, reset_reports, emit,
                      List.filter_append, isActivation]
                · simp [taskStep, hg, hpc, hch, hr]
            | pickDefault =>
                by_cases hr : ch.offCh.recvReady || ch.durCh.recvReady
                · simp [taskStep, hg, hpc, hch, hr]
                · by_cases ht : 0 < c.duration ∧ c.duration < c.now - c.onTime <;>
                    simp [taskStep, hg, hpc, hch, hr, ht, activations, reset_reports, emit,
                      List.filter_append, isActivation]
      · simp [taskStep, hg, hpc]

end Relay

namespace Relay

/-! ## Concrete fixtures for witnesses and counterexample traces -/

/-- A freshly constructed and configured relay named "Pump". -/
def c0 : Config := Configure (New false "Pump")

/-- An On trigger for "Pump" with the given duration. -/
def tOn (d : Int) : Trigger := ⟨"Pump", "On", d, false, 0⟩

/-- An Off trigger for "Pump". -/
def tOff : Trigger := ⟨"Pump", "Off", 0, false, 0⟩

/-! ## Claim theorems -/

/-- C6: a command whose target differs from the relay's name yields exactly
one error report carrying the received-a-command-intended-for message on
the command's reply channel, and every other component of the state (pin,
onTime, duration, channel pointers, tasks) is untouched (relay.go 60-66). -/
theorem execute_wrong_target (c : Config) (t : Trigger)
    (hfg : c.fg = FgPC.idle) (h : t.target ≠ c.name) :
    step c (SchedStep.deliver t) =
      { c with reports := c.reports ++ [⟨Msg.wrongTarget c.name t.target, true, t.replyCh⟩] } := by
  simp [step, hfg, execDeliver, emit, h]

/-- Witness for `execute_wrong_target` on the configured "Pump" relay and a
trigger addressed to "Valve". -/
theorem execute_wrong_target_witness :
    step c0 (SchedStep.deliver ⟨"Valve", "On", 3, false, 7⟩) =
      { c0 with reports := c0.reports ++ [⟨Msg.wrongTarget "Pump" "Valve", true, 7⟩] } :=
  execute_wrong_target c0 ⟨"Valve", "On", 3, false, 7⟩ rfl (by decide)

/-- C8: a command with an action the switch does not recognise yields
exactly one error report carrying the does-not-understand-action message
on the command's reply channel, and no state change (relay.go 159-164). -/
theorem execute_unknown_action (c : Config) (t : Trigger)
    (hfg : c.fg = FgPC.idle) (htgt : t.target = c.name)
    (hOn : isOnAction t.action = false) (hOff : isOffAction t.action = false) :
    step c (SchedStep.deliver t) =
      { c with reports := c.reports ++ [⟨Msg.badAction c.name t.action, true, t.replyCh⟩] } := by
  simp [step, hfg, execDeliver, emit, htgt, hOn, hOff]

/-- Witness for `execute_unknown_action` with action "Toggle". -/
theorem execute_unknown_action_witness :
    step c0 (SchedStep.deliver ⟨"Pump", "Toggle", 0, false, 2⟩) =
      { c0 with reports := c0.reports ++ [⟨Msg.badAction "Pump" "Toggle", true, 2⟩] } :=
  execute_unknown_action c0 ⟨"Pump", "Toggle", 0, false, 2⟩ rfl rfl (by decide) (by decide)

/-- C7: an Off command delivered while the pin is low and no session is
active (both channel pointers nil) changes nothing at all and emits no
report: the signal-send is skipped and the pin check fails (relay.go
144-158). -/
theorem off_idempotent_noop (c : Config) (t : Trigger)
    (hfg : c.fg = FgPC.idle) (htgt : t.target = c.name)
    (hact : isOffAction t.action = true)
    (hop : c.offPtr = none) (hdp : c.durationPtr = none) (hpin : c.pin = false) :
    step c (SchedStep.deliver t) = c := by
  have hOn := isOnAction_eq_false_of_isOffAction hact
  simp [step, hfg, execDeliver, offCheck, htgt, hOn, hact, hop, hdp, hpin]

/-- Witness for `off_idempotent_noop` on the freshly configured relay. -/
theorem off_idempotent_noop_witness :
    step c0 (SchedStep.deliver tOff) = c0 :=
  off_idempotent_noop c0 tOff rfl rfl (by decide) rfl rfl rfl

/-- C9: `Set`, `On` and `Off` (relay.go 173-194) write the requested level,
stamp onTime with the current time, pause 5 ms for the hardware to settle,
then return the re-read pin level; they never read or modify the session
channel pointers, the task set, or the reports. -/
theorem direct_accessors (c : Config) (s : Bool) :
    (Set c s).2 = s ∧ (Set c s).1.pin = s ∧ (Set c s).1.onTime = c.now ∧
    (Set c s).1.now = c.now + settle ∧
    (Set c s).1.durationPtr = c.durationPtr ∧ (Set c s).1.offPtr = c.offPtr ∧
    (Set c s).1.tasks = c.tasks ∧ (Set c s).1.reports = c.reports ∧
    (On c).2 = true ∧ (On c).1.pin = true ∧ (On c).1.onTime = c.now ∧
    (On c).1.now = c.now + settle ∧
    (On c).1.durationPtr = c.durationPtr ∧ (On c).1.offPtr = c.offPtr ∧
    (On c).1.tasks = c.tasks ∧ (On c).1.reports = c.reports ∧
    (Off c).2 = false ∧ (Off c).1.pin = false ∧ (Off c).1.onTime = c.now ∧
    (Off c).1.now = c.now + settle ∧
    (Off c).1.durationPtr = c.durationPtr ∧ (Off c).1.offPtr = c.offPtr ∧
    (Off c).1.tasks = c.tasks ∧ (Off c).1.reports = c.reports := by
  simp [Set, On, Off]

/-- C10: `DurationCh` returns `*r.durationCh` (relay.go 53-55). After `New`
(line 41 sets the pointer nil) and after `reset` (lines 242-245 nil it) the
dereference is a nil-pointer panic; while a session's goroutine is running
(here: after the On delivery and the goroutine's channel-setup step) the
pointer is non-nil and the call returns that channel. -/
theorem durationCh_nil_deref (p : Bool) (n : String) (c : Config) :
    durationChPanics (New p n) = true ∧
    durationChPanics (reset c) = true ∧
    DurationChDeref (run c0 [SchedStep.deliver (tOn 5), SchedStep.taskRun 0 Select.pickDefault]) =
      some 0 ∧
    durationChPanics
      (run c0 [SchedStep.deliver (tOn 5), SchedStep.taskRun 0 Select.pickDefault]) = false := by
  refine ⟨rfl, ?_, rfl, rfl⟩
  unfold durationChPanics reset
  cases h1 : c.offPtr <;> cases h2 : c.durationPtr <;> simp [h1, h2]

end Relay

namespace Relay

/-- C1: the session guard (`r.off == nil && r.durationCh == nil`, line 70)
is only falsified by the spawned goroutine itself (lines 74-77 run inside
the goroutine). A second On command delivered before the first goroutine's
channel-setup step therefore passes the guard again and spawns a second
timing task: after the two deliveries there are two tasks while both
channel pointers are still nil, and letting both tasks run yields two
simultaneously live monitoring loops and two activation reports. This
evaluates the code at the failing interleaving; it contradicts the claimed
at-most-one-task invariant. -/
theorem double_spawn_on_race :
    (run c0 [SchedStep.deliver (tOn 5), SchedStep.deliver (tOn 7)]).tasks.length = 2 ∧
    (run c0 [SchedStep.deliver (tOn 5), SchedStep.deliver (tOn 7)]).durationPtr = none ∧
    (run c0 [SchedStep.deliver (tOn 5), SchedStep.deliver (tOn 7)]).offPtr = none ∧
    ((run c0 [SchedStep.deliver (tOn 5), SchedStep.deliver (tOn 7),
        SchedStep.taskRun 0 Select.pickDefault, SchedStep.taskRun 0 Select.pickDefault,
        SchedStep.taskRun 1 Select.pickDefault, SchedStep.taskRun 1 Select.pickDefault]).tasks.filter
        (fun tk => tk.pc ≠ TaskPC.exited)).length = 2 ∧
    (run c0 [SchedStep.deliver (tOn 5), SchedStep.deliver (tOn 7),
        SchedStep.taskRun 0 Select.pickDefault, SchedStep.taskRun 0 Select.pickDefault,
        SchedStep.taskRun 1 Select.pickDefault, SchedStep.taskRun 1 Select.pickDefault]).reports =
      [⟨Msg.onFor "Pump" 5, false, 0⟩, ⟨Msg.onFor "Pump" 7, false, 0⟩] :=
  ⟨rfl, rfl, rfl, rfl, rfl⟩

/-- C5: the Off branch deduplicates by re-reading the pin after the 50 ms
grace period (line 150), but if the goroutine is only scheduled after the
foreground has already forced the pin low, reported and reset, the
goroutine still finds the buffered off signal (the foreground reset closed
the channel but the signal stays receivable) and emits its own Forced Off
report: one Off command produces two off reports, the foreground's
offBang and the task's forcedOff. -/
theorem off_double_report :
    (run c0 [SchedStep.deliver (tOn 1000), SchedStep.taskRun 0 Select.pickDefault,
        SchedStep.taskRun 0 Select.pickDefault, SchedStep.deliver tOff, SchedStep.fgResume,
        SchedStep.taskRun 0 Select.pickOff]).reports =
      [⟨Msg.onFor "Pump" 1000, false, 0⟩,
       ⟨Msg.offBang "Pump" 0, false, 0⟩,
       ⟨Msg.forcedOff "Pump" 5000000, false, 0⟩] :=
  rfl

end Relay

namespace Relay

/-- C4: a revision received by the monitoring loop (relay.go 107-116) is
dispatched on the newly received value `v` — the captured command trigger
`t0` and the current `c.duration` are arbitrary here and do not influence
the branch. Non-positive `v`: pin low, one off-after report, the goroutine
exits and the deferred reset tears the session down. Positive `v`: the
duration is updated to `v`, one changing-duration report (carrying the old
scheduled duration) is emitted, and the goroutine stays in its loop with
the pin untouched. -/
theorem task_revision_behavior (c : Config) (i : Nat) (t0 : Trigger) (v : Int)
    (htasks : c.tasks = [⟨i, TaskPC.loop, some ⟨⟨[v], false⟩, ⟨[], false⟩⟩, t0⟩])
    (hdp : c.durationPtr = some i) (hop : c.offPtr = some i) :
    (v ≤ 0 →
      (step c (SchedStep.taskRun i Select.pickDur)).pin = false ∧
      (step c (SchedStep.taskRun i Select.pickDur)).reports =
        c.reports ++ [⟨Msg.offAfter c.name (c.now - c.onTime), t0.error, t0.replyCh⟩] ∧
      (step c (SchedStep.taskRun i Select.pickDur)).durationPtr = none ∧
      (step c (SchedStep.taskRun i Select.pickDur)).offPtr = none ∧
      (step c (SchedStep.taskRun i Select.pickDur)).duration = 0 ∧
      (step c (SchedStep.taskRun i Select.pickDur)).onTime = 0 ∧
      (∀ tk ∈ (step c (SchedStep.taskRun i Select.pickDur)).tasks, tk.pc = TaskPC.exited)) ∧
    (0 < v →
      (step c (SchedStep.taskRun i Select.pickDur)).pin = c.pin ∧
      (step c (SchedStep.taskRun i Select.pickDur)).reports =
        c.reports ++ [⟨Msg.changing c.name v c.duration, t0.error, t0.replyCh⟩] ∧
      (step c (SchedStep.taskRun i Select.pickDur)).duration = v ∧
      (step c (SchedStep.taskRun i Select.pickDur)).durationPtr = some i ∧
      (step c (SchedStep.taskRun i Select.pickDur)).offPtr = some i ∧
      (step c (SchedStep.taskRun i Select.pickDur)).tasks =
        [⟨i, TaskPC.loop, some ⟨⟨[], false⟩, ⟨[], false⟩⟩, t0⟩]) := by
  constructor
  · intro hv
    simp [step, taskStep, htasks, hdp, hop, getTask, setTask, mapChans, reset, emit,
      Chan.recvReady, Chan.recv, Chan.close, hv]
  · intro hv
    have hv2 : ¬ v ≤ 0 := not_le.mpr hv
    simp [step, taskStep, htasks, hdp, hop, getTask, setTask, mapChans, reset, emit,
      Chan.recvReady, Chan.recv, Chan.close, hv2]

end Relay

namespace Relay

/-- A live session on "Pump": goroutine 0 in its loop, a pending revision
of 4 in the duration channel, scheduled duration 9, clock at 3. -/
def cRev : Config :=
  { name := "Pump", pin := true, onTime := 0, duration := 9,
    durationPtr := some 0, offPtr := some 0,
    tasks := [⟨0, TaskPC.loop, some ⟨⟨[4], false⟩, ⟨[], false⟩⟩, tOn 9⟩],
    fg := FgPC.idle, reports := [], now := 3, nextId := 1, panicked := false }

/-- Witness for `task_revision_behavior`: the pending positive revision 4
updates the duration and emits one changing-duration report. -/
theorem task_revision_behavior_witness :
    (step cRev (SchedStep.taskRun 0 Select.pickDur)).duration = 4 ∧
    (step cRev (SchedStep.taskRun 0 Select.pickDur)).reports =
      [⟨Msg.changing "Pump" 4 9, false, 0⟩] ∧
    (step cRev (SchedStep.taskRun 0 Select.pickDur)).pin = true :=
  ⟨((task_revision_behavior cRev 0 (tOn 9) 4 rfl rfl rfl).2 (by decide)).2.2.1,
   ((task_revision_behavior cRev 0 (tOn 9) 4 rfl rfl rfl).2 (by decide)).2.1,
   ((task_revision_behavior cRev 0 (tOn 9) 4 rfl rfl rfl).2 (by decide)).1⟩

/-- C3: the monitoring loop's default branch (relay.go 117-127) checks the
timeout only under `r.duration > 0`. With `0 < duration` and elapsed time
`now - onTime` beyond it (and both channels quiet), one step drives the pin
low, emits exactly one off-after timeout report, and the deferred reset
clears the session (both pointers nil, duration and onTime zeroed); from
then on no schedule of goroutine steps and time advances adds any report
or turns the pin back on, so the report is the session's single final one.
With `duration = 0` the branch does nothing at all — the session stays on
indefinitely. -/
theorem task_timeout_behavior (c : Config) (i : Nat) (t0 : Trigger)
    (htasks : c.tasks = [⟨i, TaskPC.loop, some ⟨⟨[], false⟩, ⟨[], false⟩⟩, t0⟩])
    (hdp : c.durationPtr = some i) (hop : c.offPtr = some i) :
    (0 < c.duration → c.duration < c.now - c.onTime →
      (step c (SchedStep.taskRun i Select.pickDefault)).pin = false ∧
      (step c (SchedStep.taskRun i Select.pickDefault)).reports =
        c.reports ++ [⟨Msg.offAfter c.name (c.now - c.onTime), t0.error, t0.replyCh⟩] ∧
      (step c (SchedStep.taskRun i Select.pickDefault)).durationPtr = none ∧
      (step c (SchedStep.taskRun i Select.pickDefault)).offPtr = none ∧
      (step c (SchedStep.taskRun i Select.pickDefault)).duration = 0 ∧
      (step c (SchedStep.taskRun i Select.pickDefault)).onTime = 0 ∧
      (∀ s : List SchedStep, (∀ σ ∈ s, calmStep σ = true) →
        (run (step c (SchedStep.taskRun i Select.pickDefault)) s).reports =
          (step c (SchedStep.taskRun i Select.pickDefault)).reports ∧
        (run (step c (SchedStep.taskRun i Select.pickDefault)) s).pin = false)) ∧
    (c.duration = 0 → step c (SchedStep.taskRun i Select.pickDefault) = c) := by
  constructor
  · intro hd he
    have hcond : 0 < c.duration ∧ c.duration < c.now - c.onTime := ⟨hd, he⟩
    have hstep : step c (SchedStep.taskRun i Select.pickDefault) =
        { c with pin := false,
                 tasks := [⟨i, TaskPC.exited,
                   some ⟨⟨[], true⟩, ⟨[], true⟩⟩, t0⟩],
                 reports := c.reports ++
                   [⟨Msg.offAfter c.name (c.now - c.onTime), t0.error, t0.replyCh⟩],
                 durationPtr := none, offPtr := none, duration := 0, onTime := 0 } := by
      simp [step, taskStep, htasks, hdp, hop, getTask, setTask, mapChans, reset, emit,
        Chan.recvReady, Chan.close, hcond]
    have hex : ∀ tk ∈ (step c (SchedStep.taskRun i Select.pickDefault)).tasks,
        tk.pc = TaskPC.exited := by
      rw [hstep]; simp
    refine ⟨by rw [hstep], by rw [hstep], by rw [hstep], by rw [hstep], by rw [hstep],
      by rw [hstep], ?_⟩
    intro s hs
    refine ⟨(run_calm_of_exited hex hs).1, ?_⟩
    rw [(run_calm_of_exited hex hs).2, hstep]
  · intro hd
    simp [step, taskStep, htasks, hdp, hop, getTask, Chan.recvReady, hd]

end Relay

namespace Relay

/-- A live session on "Pump": goroutine 0 in its loop, both channels quiet,
scheduled duration 9, clock at 20 (so the timeout has elapsed). -/
def cTime : Config :=
  { name := "Pump", pin := true, onTime := 0, duration := 9,
    durationPtr := some 0, offPtr := some 0,
    tasks := [⟨0, TaskPC.loop, some ⟨⟨[], false⟩, ⟨[], false⟩⟩, tOn 9⟩],
    fg := FgPC.idle, reports := [], now := 20, nextId := 1, panicked := false }

/-- Witness for `task_timeout_behavior`: with duration 9 and 20 ns elapsed
the step turns the pin off and reports off-after-20. -/
theorem task_timeout_behavior_witness :
    (step cTime (SchedStep.taskRun 0 Select.pickDefault)).pin = false ∧
    (step cTime (SchedStep.taskRun 0 Select.pickDefault)).reports =
      [⟨Msg.offAfter "Pump" 20, false, 0⟩] ∧
    (step cTime (SchedStep.taskRun 0 Select.pickDefault)).durationPtr = none :=
  ⟨((task_timeout_behavior cTime 0 (tOn 9) rfl rfl rfl).1 (by decide) (by decide)).1,
   ((task_timeout_behavior cTime 0 (tOn 9) rfl rfl rfl).1 (by decide) (by decide)).2.1,
   ((task_timeout_behavior cTime 0 (tOn 9) rfl rfl rfl).1 (by decide) (by decide)).2.2.1⟩

/-- C2: an On command delivered while no session is active (both channel
pointers nil; here additionally no residual goroutines, so the fresh id is
unambiguous) stamps `onTime := now` and drives the pin high in the
foreground (relay.go 71-72), spawns one goroutine; the goroutine's first
step creates fresh (empty, open) channels and publishes the pointers
(74-77), and its second step emits exactly one activation report: on-
indefinitely when the command's duration is non-positive, on-for-D when
positive (89-97). Afterwards the goroutine sits in its loop, and no
further step of it can ever emit another activation report. -/
theorem execute_on_activation (c : Config) (t : Trigger)
    (hfg : c.fg = FgPC.idle) (htasks : c.tasks = [])
    (hop : c.offPtr = none) (hdp : c.durationPtr = none)
    (htgt : t.target = c.name) (hact : isOnAction t.action = true) :
    (step c (SchedStep.deliver t)).onTime = c.now ∧
    (step c (SchedStep.deliver t)).pin = true ∧
    (step c (SchedStep.deliver t)).tasks =
      [⟨c.nextId, TaskPC.start, none, { t with error := false }⟩] ∧
    (run c [SchedStep.deliver t, SchedStep.taskRun c.nextId Select.pickDefault]).durationPtr =
      some c.nextId ∧
    (run c [SchedStep.deliver t, SchedStep.taskRun c.nextId Select.pickDefault]).offPtr =
      some c.nextId ∧
    (run c [SchedStep.deliver t, SchedStep.taskRun c.nextId Select.pickDefault]).tasks =
      [⟨c.nextId, TaskPC.report, some ⟨⟨[], false⟩, ⟨[], false⟩⟩, { t with error := false }⟩] ∧
    (run c [SchedStep.deliver t, SchedStep.taskRun c.nextId Select.pickDefault,
        SchedStep.taskRun c.nextId Select.pickDefault]).reports =
      c.reports ++
        [⟨if t.duration ≤ 0 then Msg.onIndefinitely c.name else Msg.onFor c.name t.duration,
          false, t.replyCh⟩] ∧
    (run c [SchedStep.deliver t, SchedStep.taskRun c.nextId Select.pickDefault,
        SchedStep.taskRun c.nextId Select.pickDefault]).tasks =
      [⟨c.nextId, TaskPC.loop, some ⟨⟨[], false⟩, ⟨[], false⟩⟩, { t with error := false }⟩] ∧
    (∀ sel : Select,
      activations (step
        (run c [SchedStep.deliver t, SchedStep.taskRun c.nextId Select.pickDefault,
          SchedStep.taskRun c.nextId Select.pickDefault]) (SchedStep.taskRun c.nextId sel)) =
      activations (run c [SchedStep.deliver t, SchedStep.taskRun c.nextId Select.pickDefault,
        SchedStep.taskRun c.nextId Select.pickDefault])) := by
  have e1 : step c (SchedStep.deliver t) =
      { c with onTime := c.now, pin := true,
               tasks := [⟨c.nextId, TaskPC.start, none, { t with error := false }⟩],
               nextId := c.nextId + 1 } := by
    simp [step, hfg, execDeliver, htgt, hact, hop, hdp, htasks]
  have e2 : run c [SchedStep.deliver t, SchedStep.taskRun c.nextId Select.pickDefault] =
      { c with onTime := c.now, pin := true,
               tasks := [⟨c.nextId, TaskPC.report, some ⟨⟨[], false⟩, ⟨[], false⟩⟩,
                 { t with error := false }⟩],
               nextId := c.nextId + 1,
               durationPtr := some c.nextId, offPtr := some c.nextId } := by
    show step (step c (SchedStep.deliver t)) (SchedStep.taskRun c.nextId Select.pickDefault) = _
    rw [e1]
    simp [step, taskStep, getTask, setTask]
  have e3 : run c [SchedStep.deliver t, SchedStep.taskRun c.nextId Select.pickDefault,
        SchedStep.taskRun c.nextId Select.pickDefault] =
      { c with onTime := c.now, pin := true,
               tasks := [⟨c.nextId, TaskPC.loop, some ⟨⟨[], false⟩, ⟨[], false⟩⟩,
                 { t with error := false }⟩],
               nextId := c.nextId + 1,
               durationPtr := some c.nextId, offPtr := some c.nextId,
               duration := if t.duration ≤ 0 then c.duration else t.duration,
               reports := c.reports ++
                 [⟨if t.duration ≤ 0 then Msg.onIndefinitely c.name
                   else Msg.onFor c.name t.duration, false, t.replyCh⟩] } := by
    show step (run c [SchedStep.deliver t, SchedStep.taskRun c.nextId Select.pickDefault])
        (SchedStep.taskRun c.nextId Select.pickDefault) = _
    rw [e2]
    by_cases hd : t.duration ≤ 0 <;>
      simp [step, taskStep, getTask, setTask, emit, hd]
  refine ⟨by rw [e1], by rw [e1], by rw [e1], by rw [e2], by rw [e2], by rw [e2],
    by rw [e3], by rw [e3], ?_⟩
  intro sel
  have hpc : ∀ tk ∈ (run c [SchedStep.deliver t, SchedStep.taskRun c.nextId Select.pickDefault,
      SchedStep.taskRun c.nextId Select.pickDefault]).tasks,
      tk.pc = TaskPC.loop ∨ tk.pc = TaskPC.exited := by
    rw [e3]; simp
  exact taskStep_no_activation hpc

end Relay

namespace Relay

/-- Witness for `execute_on_activation`: an indefinite On ("duration" 0)
on the configured "Pump" relay raises the pin, publishes channel 0, and
yields exactly the on-indefinitely activation report. -/
theorem execute_on_activation_witness :
    (step c0 (SchedStep.deliver (tOn 0))).pin = true ∧
    (run c0 [SchedStep.deliver (tOn 0), SchedStep.taskRun 0 Select.pickDefault]).durationPtr =
      some 0 ∧
    (run c0 [SchedStep.deliver (tOn 0), SchedStep.taskRun 0 Select.pickDefault,
        SchedStep.taskRun 0 Select.pickDefault]).reports =
      [⟨Msg.onIndefinitely "Pump", false, 0⟩] :=
  ⟨(execute_on_activation c0 (tOn 0) rfl rfl rfl rfl rfl rfl).2.1,
   (execute_on_activation c0 (tOn 0) rfl rfl rfl rfl rfl rfl).2.2.2.1,
   (execute_on_activation c0 (tOn 0) rfl rfl rfl rfl rfl rfl).2.2.2.2.2.2.1⟩

end Relay
